import Mathlib

/-!
Shallow embedding of the portfolio-bot workflow engine
(repository `personal-chat-bot`, package `portfolio_bot`).

Each definition below translates one piece of the Python source:

* `Msg`, `RouteType`, `RouteDecision`, `Document`, `NodeState`, `StateUpdate`
  come from `portfolio_bot/core/state.py` (messages are `HumanMessage` or
  `AIMessage` values; `NodeState` is a `TypedDict` with `total=False`, so every
  field other than the `messages` history is modelled as an `Option`).
* `applyUpdate` is the reducer-merge declared by `NodeState`: the `messages`
  field is annotated with `add_messages` (append), every other field uses the
  default replace policy (a field absent from the update is left untouched).
* `routerRun`, `retrieverRun`, `toolAgentRun`, `responseAgentRun` translate
  `Router.run`, `Retriever.run`, `ToolAgent.run` and `ResponseAgent.run` from
  `portfolio_bot/core/agents/`.  External services (classification chain,
  vector-store similarity search, text-generation chain) are oracles passed in
  as function arguments; an `Except.error ()` outcome stands for the service
  raising an exception.  Node functions that may call a service also return a
  `Bool` recording whether the service was actually invoked.
* `stateBeforeResponder`, `runTurn`, `botChat`, `sendMessage` translate the
  compiled graph topology of `create_graph`, `PortfolioBot.chat` and
  `ChatService.send_message` / `ChatService._validate_message`
  (`portfolio_bot/core/graph.py`, `portfolio_bot/services/chat_service.py`).
  `create_graph` compiles the graph with `graph.compile()` and no
  checkpointer, and `PortfolioBot.chat` builds the graph input from the new
  message only, so one turn is a pure function of the message and the service
  oracles.
-/

namespace PortfolioBot

/-- A conversation message: `HumanMessage` or `AIMessage`
(`langchain_core.messages`), carrying its text content. -/
inductive Msg where
  | human (content : String)
  | ai (content : String)
deriving DecidableEq, Repr

/-- The text content of a message. -/
def Msg.content : Msg → String
  | .human c => c
  | .ai c => c

/-- `isinstance(msg, HumanMessage)`. -/
def Msg.isHuman : Msg → Bool
  | .human _ => true
  | .ai _ => false

/-- `RouteType` enum from `state.py`: `rag`, `tool`, `direct`. -/
inductive RouteType where
  | rag
  | tool
  | direct
deriving DecidableEq, Repr

/-- `RouteDecision` Pydantic model from `state.py`. -/
structure RouteDecision where
  route_type : RouteType
  tool_name : Option String := none
  reasoning : String := ""
deriving DecidableEq, Repr

/-- A retrieved document: a dict with `content` and `metadata` keys
(`metadata` carries `source` and `section`, see
`ResponseAgent._format_documents`). -/
structure Document where
  content : String
  source : String := "unknown"
  sectionName : String := ""
deriving DecidableEq, Repr

/-- `NodeState` TypedDict (`total=False`) from `state.py`.  The `messages`
history defaults to the empty list (the `add_messages` reducer and every
reader use `state.get("messages", [])`); each remaining field is an `Option`,
`none` meaning the key is absent. -/
structure NodeState where
  messages : List Msg := []
  route_type : Option RouteType := none
  documents : Option (List Document) := none
  tool_name : Option String := none
  tool_args : Option (List (String × String)) := none
  tool_result : Option String := none
  final_response : Option String := none
deriving DecidableEq, Repr

/-- A node return value: a state update mentioning only the fields it sets
(`none` = key absent from the returned dict). -/
structure StateUpdate where
  messages : Option (List Msg) := none
  route_type : Option RouteType := none
  documents : Option (List Document) := none
  tool_name : Option String := none
  tool_args : Option (List (String × String)) := none
  tool_result : Option String := none
  final_response : Option String := none
deriving DecidableEq, Repr

/-- Replace policy for a single field: a key present in the update overwrites
the stored value, an absent key leaves it untouched. -/
def replaceField {α : Type} (old upd : Option α) : Option α :=
  match upd with
  | some v => some v
  | none => old

/-- The reducer merge declared by `NodeState`: `messages` uses `add_messages`
(new messages appended after the existing history, absent history treated as
empty), all other fields use the default replace policy. -/
def applyUpdate (s : NodeState) (u : StateUpdate) : NodeState :=
  { messages := s.messages ++ u.messages.getD []
    route_type := replaceField s.route_type u.route_type
    documents := replaceField s.documents u.documents
    tool_name := replaceField s.tool_name u.tool_name
    tool_args := replaceField s.tool_args u.tool_args
    tool_result := replaceField s.tool_result u.tool_result
    final_response := replaceField s.final_response u.final_response }

/-- The loop shared by `Router.run`, `Retriever._extract_query` and
`ResponseAgent._get_last_human_message`: walk the messages in reverse and
return the content of the first `HumanMessage` found, else the empty
string. -/
def lastHumanContent (ms : List Msg) : String :=
  match ms.reverse.find? Msg.isHuman with
  | some m => m.content
  | none => ""

/-- `"User"` for a `HumanMessage`, `"Assistant"` otherwise, as in
`Router._build_context` and `ResponseAgent._format_conversation`. -/
def roleLabel (m : Msg) : String :=
  if m.isHuman then "User" else "Assistant"

/-- Python `l[-n:]`. -/
def takeLast {α : Type} (n : Nat) (l : List α) : List α :=
  l.drop (l.length - n)

/-- `Router._build_context` with its default `max_messages = 4`: last four
messages, each rendered as `role: content` with content truncated to 100
characters, joined by newlines; empty input gives the empty string. -/
def routerContext (messages : List Msg) : String :=
  if messages.isEmpty then ""
  else String.intercalate "\n"
    ((takeLast 4 messages).map (fun m => roleLabel m ++ ": " ++ m.content.take 100))

/-- A state update carrying only `route_type`, as returned on the default
paths of `Router.run`. -/
def routeOnly (r : RouteType) : StateUpdate :=
  { route_type := some r }

/-- Python truthiness of `Optional[str]`: `None` and `""` are falsy. -/
def optTruthy : Option String → Bool
  | some s => s ≠ ""
  | none => false

/-- `Router.run`.  The classification chain is the oracle `classify`
(query and context to a `RouteDecision`, `Except.error ()` when the service
raises).  Returns the state update together with a flag telling whether the
classification service was invoked. -/
def routerRun (state : NodeState)
    (classify : String → String → Except Unit RouteDecision) :
    StateUpdate × Bool :=
  let messages := state.messages
  if messages.isEmpty then (routeOnly RouteType.direct, false)
  else
    let query := lastHumanContent messages
    if query = "" then (routeOnly RouteType.direct, false)
    else
      let context := routerContext messages.dropLast
      match classify query (if context = "" then "No previous context" else context) with
      | .ok decision =>
          let update := routeOnly decision.route_type
          let update :=
            if decision.route_type = RouteType.tool ∧ optTruthy decision.tool_name then
              { update with tool_name := decision.tool_name }
            else update
          (update, true)
      | .error _ => (routeOnly RouteType.direct, true)

/-- `Retriever.run`.  The vector-store similarity search is the oracle
`retrieve` (`Except.error ()` when the backend raises).  Returns the state
update together with a flag telling whether a similarity query was issued. -/
def retrieverRun (state : NodeState)
    (retrieve : String → Except Unit (List Document)) :
    StateUpdate × Bool :=
  let query := lastHumanContent state.messages
  if query = "" then ({ documents := some [] }, false)
  else
    match retrieve query with
    | .ok documents => ({ documents := some documents }, true)
    | .error _ => ({ documents := some [] }, true)

/-- Placeholder text of the `email` branch of `ToolAgent.run`. -/
def EMAIL_PLACEHOLDER : String :=
  "📧 EMAIL TOOL (Placeholder)\n" ++
  "This tool would send an email. To implement:\n" ++
  "1. Create portfolio_bot/core/tools/email_tool.py\n" ++
  "2. Use a service like SendGrid, Mailjet, or SMTP\n" ++
  "3. Register the tool in ToolAgent.__init__\n" ++
  "4. Execute it here and return the result"

/-- Placeholder text of the `calendar` branch of `ToolAgent.run`. -/
def CALENDAR_PLACEHOLDER : String :=
  "📅 CALENDAR TOOL (Placeholder)\n" ++
  "This tool would check calendar availability. To implement:\n" ++
  "1. Create portfolio_bot/core/tools/calendar_tool.py\n" ++
  "2. Integrate with Google Calendar API or similar\n" ++
  "3. Register the tool in ToolAgent.__init__\n" ++
  "4. Execute it here and return the result"

/-- Rendering of `state.get("tool_name")` inside the f-string
`f"Unknown tool: ..."`: a missing key prints as `None`. -/
def toolNameText : Option String → String
  | some s => s
  | none => "None"

/-- `ToolAgent.run` (placeholder implementation): hardcoded `email` and
`calendar` branches, every other tool name falls through to the
`Unknown tool` message.  The function is total, so no exception escapes. -/
def toolAgentRun (state : NodeState) : StateUpdate :=
  let tool_name := state.tool_name
  if tool_name = some "email" then
    { tool_result := some EMAIL_PLACEHOLDER }
  else if tool_name = some "calendar" then
    { tool_result := some CALENDAR_PLACEHOLDER }
  else
    { tool_result := some ("Unknown tool: " ++ toolNameText tool_name ++
        ". Available tools: email, calendar") }

/-- The variables `ResponseAgent.run` passes to its generation chain. -/
structure GenInput where
  query : String
  context : String
  tool_results : String
  conversation_history : String
deriving DecidableEq, Repr

/-- The fixed fallback text of the `except` branch of `ResponseAgent.run`. -/
def ERROR_RESPONSE : String :=
  "I apologize, but I encountered an error generating a response. " ++
  "Please try again or rephrase your question."

/-- One entry of `ResponseAgent._format_documents` (1-based index). -/
def formatDocument (i : Nat) (d : Document) : String :=
  let header := "[Document " ++ toString i ++ "]" ++
    (if d.sectionName ≠ "" then " (" ++ d.sectionName ++ ")" else "")
  header ++ "\n" ++ d.content ++ "\n"

/-- `ResponseAgent._format_documents`: empty list gives the empty string,
otherwise the numbered entries joined by newlines. -/
def formatDocuments (documents : List Document) : String :=
  if documents.isEmpty then ""
  else String.intercalate "\n"
    (documents.enum.map (fun p => formatDocument (p.1 + 1) p.2))

/-- `ResponseAgent._format_conversation` with its default `max_messages = 6`:
last six messages rendered as `role: content` joined by newlines; empty input
gives the empty string. -/
def formatConversation (messages : List Msg) : String :=
  if messages.isEmpty then ""
  else String.intercalate "\n"
    ((takeLast 6 messages).map (fun m => roleLabel m ++ ": " ++ m.content))

/-- The chain input assembled by `ResponseAgent.run` before calling the
generation service: the last user query, the formatted documents (falling back
to `"No relevant documents found."`), the tool result (falling back to
`"No tools were used."`, with Python truthiness so an empty result also falls
back), and the conversation history over `messages[:-1]` (falling back to
`"No previous conversation."`). -/
def responderInput (state : NodeState) : GenInput :=
  let messages := state.messages
  let context := formatDocuments (state.documents.getD [])
  let history := formatConversation messages.dropLast
  { query := lastHumanContent messages
    context := if context = "" then "No relevant documents found." else context
    tool_results :=
      match state.tool_result with
      | some s => if s = "" then "No tools were used." else s
      | none => "No tools were used."
    conversation_history :=
      if history = "" then "No previous conversation." else history }

/-- `ResponseAgent.run`.  The generation chain is the oracle `generate`
(`Except.error ()` when the service raises).  On success the generated text is
appended to `messages` as the assistant message and set as `final_response`;
on failure the fixed `ERROR_RESPONSE` fallback goes through the same two
fields. -/
def responseAgentRun (state : NodeState)
    (generate : GenInput → Except Unit String) : StateUpdate :=
  match generate (responderInput state) with
  | .ok response =>
      { messages := some [Msg.ai response], final_response := some response }
  | .error _ =>
      { messages := some [Msg.ai ERROR_RESPONSE], final_response := some ERROR_RESPONSE }

/-- The three external services one turn may consult, as oracles: the
classification chain (`Router`), the vector-store similarity search
(`Retriever`) and the text-generation chain (`ResponseAgent`).
`Except.error ()` stands for the service raising an exception. -/
structure Services where
  classify : String → String → Except Unit RouteDecision
  retrieve : String → Except Unit (List Document)
  generate : GenInput → Except Unit String

/-- The graph input built by `PortfolioBot.chat`:
`{"messages": [HumanMessage(content=message)]}`, merged into a fresh state.
The `thread_id` argument of `chat` is never part of this input. -/
def chatInputState (message : String) : NodeState :=
  { messages := [Msg.human message] }

/-- The state after the `router` node: the entry state merged with the update
returned by `Router.run`. -/
def stateAfterRouter (message : String) (svc : Services) : NodeState :=
  let s0 := chatInputState message
  applyUpdate s0 (routerRun s0 svc.classify).1

/-- The conditional edge of `create_graph`: dispatch on
`state.get("route_type", RouteType.DIRECT)` to the `retriever` node, the
`tool_agent` node, or straight to the `response_agent` node, merging the
content node update when one runs. -/
def routeBranch (s1 : NodeState) (svc : Services) : NodeState :=
  match s1.route_type.getD RouteType.direct with
  | .rag => applyUpdate s1 (retrieverRun s1 svc.retrieve).1
  | .tool => applyUpdate s1 (toolAgentRun s1)
  | .direct => s1

/-- The state reaching the `response_agent` node on the turn for `message`. -/
def stateBeforeResponder (message : String) (svc : Services) : NodeState :=
  routeBranch (stateAfterRouter message svc) svc

/-- One full execution of the compiled graph on the input built from
`message`: `START → router → (retriever | tool_agent | ·) → response_agent →
END`, merging each node update with `applyUpdate`. -/
def runTurn (message : String) (svc : Services) : NodeState :=
  let s2 := stateBeforeResponder message svc
  applyUpdate s2 (responseAgentRun s2 svc.generate)

/-- `PortfolioBot.chat(message, thread_id)`: invoke the compiled graph on the
input built from the message alone and return
`result.get("final_response", "I couldn\x27t generate a response.")`.
The graph is compiled without a checkpointer (`graph.compile()` in
`create_graph`) and `threadId` is used only in a debug log, so the result is a
function of `message` and the service outcomes only. -/
def botChat (message : String) (threadId : String) (svc : Services) : String :=
  (runTurn message svc).final_response.getD "I couldn\x27t generate a response."

/-- `ChatService._validate_message`: `ValueError` (modelled as
`Except.error` with the error text) on an empty message or on more than 4000
characters, otherwise ok. -/
def validateMessage (message : String) : Except String Unit :=
  if message = "" then Except.error "Message cannot be empty"
  else if message.length > 4000 then Except.error "Message too long (max 4000 characters)"
  else Except.ok ()

/-- `ChatService.send_message` on an initialized service: validate first,
then call `bot.chat`.  The second component records whether `bot.chat`
(the workflow) was invoked. -/
def sendMessage (message : String) (threadId : String) (svc : Services) :
    Except String String × Bool :=
  match validateMessage message with
  | .error e => (Except.error e, false)
  | .ok _ => (Except.ok (botChat message threadId svc), true)

/-- Whether `sendMessage` raised a `ValueError`. -/
def raisesValueError (r : Except String String × Bool) : Bool :=
  match r.1 with
  | .error _ => true
  | .ok _ => false

/-- Two sequential `PortfolioBot.chat` calls on the same bot object and the
same thread id.  The bot object holds only the compiled graph; the graph is
compiled without a checkpointer and `chat` builds its input from the new
message alone, so the two calls share no state and each is its own
`runTurn`. -/
def chatTwice (m1 m2 t : String) (svc1 svc2 : Services) : String × String :=
  (botChat m1 t svc1, botChat m2 t svc2)

/-- The prior conversation the `response_agent` node of the second of two
sequential same-thread calls can see: the `messages[:-1]` slice of the state
reaching it (`ResponseAgent.run` formats exactly this slice as the
conversation history).  As with `chatTwice`, nothing of the first call
(`m1`, `svc1`) or of the thread id reaches the second graph invocation. -/
def secondTurnPriorMessages (m1 m2 t : String) (svc1 svc2 : Services) : List Msg :=
  (stateBeforeResponder m2 svc2).messages.dropLast

/-! ### Helper lemmas -/

/-- If every `HumanMessage` in the history has empty content (in particular if
there is none), the reverse search of the agents yields the empty query. -/
theorem lastHumanContent_empty (ms : List Msg)
    (h : ∀ m ∈ ms, m.isHuman = true → m.content = "") :
    lastHumanContent ms = "" := by
  unfold lastHumanContent
  cases hf : ms.reverse.find? Msg.isHuman with
  | none => rfl
  | some m =>
      have hm : m ∈ ms := List.mem_reverse.mp (List.mem_of_find?_eq_some hf)
      have hh : Msg.isHuman m = true := List.find?_some hf
      simpa using h m hm hh

/-- `Router.run` never touches the `messages` field. -/
theorem routerRun_messages_none (s : NodeState)
    (c : String → String → Except Unit RouteDecision) :
    (routerRun s c).1.messages = none := by
  unfold routerRun
  by_cases h1 : s.messages.isEmpty
  · simp [h1, routeOnly]
  · by_cases h2 : lastHumanContent s.messages = ""
    · simp [h1, h2, routeOnly]
    · simp only [h1, h2]
      cases c (lastHumanContent s.messages)
          (if routerContext s.messages.dropLast = "" then "No previous context"
           else routerContext s.messages.dropLast) with
      | ok d =>
          by_cases h3 : d.route_type = RouteType.tool ∧ optTruthy d.tool_name
          · simp [h3, routeOnly]
          · simp [h3, routeOnly]
      | error e => simp [routeOnly]

/-- `Retriever.run` never touches the `messages` field. -/
theorem retrieverRun_messages_none (s : NodeState)
    (r : String → Except Unit (List Document)) :
    (retrieverRun s r).1.messages = none := by
  unfold retrieverRun
  by_cases h1 : lastHumanContent s.messages = ""
  · simp [h1]
  · simp only [h1]
    cases r (lastHumanContent s.messages) <;> simp

/-- `ToolAgent.run` never touches the `messages` field. -/
theorem toolAgentRun_messages_none (s : NodeState) :
    (toolAgentRun s).messages = none := by
  unfold toolAgentRun
  by_cases h1 : s.tool_name = some "email"
  · simp [h1]
  · by_cases h2 : s.tool_name = some "calendar" <;> simp [h1, h2]

/-- Merging an update that does not mention `messages` leaves the history as
it was. -/
theorem applyUpdate_messages_of_none (s : NodeState) (u : StateUpdate)
    (h : u.messages = none) : (applyUpdate s u).messages = s.messages := by
  simp [applyUpdate, h]

/-- The conditional branch after the router leaves the history as it was. -/
theorem routeBranch_messages (s1 : NodeState) (svc : Services) :
    (routeBranch s1 svc).messages = s1.messages := by
  unfold routeBranch
  cases s1.route_type.getD RouteType.direct with
  | rag => exact applyUpdate_messages_of_none _ _ (retrieverRun_messages_none _ _)
  | tool => exact applyUpdate_messages_of_none _ _ (toolAgentRun_messages_none _)
  | direct => rfl

/-- The history reaching the `response_agent` node is exactly the single new
user message of the turn: no node before it appends anything, and no prior
turn contributes (the graph has no checkpointer). -/
theorem stateBeforeResponder_messages (message : String) (svc : Services) :
    (stateBeforeResponder message svc).messages = [Msg.human message] := by
  unfold stateBeforeResponder
  rw [routeBranch_messages]
  unfold stateAfterRouter
  rw [applyUpdate_messages_of_none _ _ (routerRun_messages_none _ _)]
  rfl

/-- `ResponseAgent.run` always sets `final_response`, to the generated text on
success and to the fixed fallback on failure. -/
theorem runTurn_final_response_isSome (message : String) (svc : Services) :
    (runTurn message svc).final_response.isSome = true := by
  unfold runTurn responseAgentRun
  cases hg : svc.generate (responderInput (stateBeforeResponder message svc)) <;>
    simp [hg, applyUpdate, replaceField]

/-! ### Concrete service bundles used by witnesses and counterexamples -/

/-- Services where classification fails and everything else succeeds. -/
def svcClassifyFail : Services :=
  { classify := fun _ _ => Except.error ()
    retrieve := fun _ => Except.ok []
    generate := fun _ => Except.ok "Hi there." }

/-- Services where generation always raises. -/
def svcGenFail : Services :=
  { classify := fun _ _ =>
      Except.ok { route_type := RouteType.direct, tool_name := none, reasoning := "chat" }
    retrieve := fun _ => Except.ok []
    generate := fun _ => Except.error () }

/-- Services where every call succeeds with a fixed output. -/
def svcAllOk : Services :=
  { classify := fun _ _ =>
      Except.ok { route_type := RouteType.direct, tool_name := none, reasoning := "chat" }
    retrieve := fun _ => Except.ok []
    generate := fun _ => Except.ok "Hello, I am the portfolio bot." }

/-- Services where generation succeeds but returns empty text. -/
def svcGenEmpty : Services :=
  { classify := fun _ _ =>
      Except.ok { route_type := RouteType.direct, tool_name := none, reasoning := "chat" }
    retrieve := fun _ => Except.ok []
    generate := fun _ => Except.ok "" }

/-! ### Claim theorems -/

/-- C2: the merge obeys the declared policy table.  Merging two updates on the
append field `messages` yields the original history followed by the first and
then the second batch of new messages, in order; for every other (replace)
field, a value present in the update becomes the merged value of that
field. -/
theorem merge_policy_table (s : NodeState) (u u1 u2 : StateUpdate) :
    (applyUpdate (applyUpdate s u1) u2).messages
      = s.messages ++ u1.messages.getD [] ++ u2.messages.getD []
    ∧ (∀ v, u.route_type = some v → (applyUpdate s u).route_type = some v)
    ∧ (∀ v, u.documents = some v → (applyUpdate s u).documents = some v)
    ∧ (∀ v, u.tool_name = some v → (applyUpdate s u).tool_name = some v)
    ∧ (∀ v, u.tool_args = some v → (applyUpdate s u).tool_args = some v)
    ∧ (∀ v, u.tool_result = some v → (applyUpdate s u).tool_result = some v)
    ∧ (∀ v, u.final_response = some v → (applyUpdate s u).final_response = some v) := by
  refine ⟨by simp [applyUpdate], ?_, ?_, ?_, ?_, ?_, ?_⟩ <;>
    exact fun v h => by simp [applyUpdate, replaceField, h]

/-- Replace-policy update whose every non-message field is set, used by the
witness of the merge theorem. -/
def exMergeUpdate : StateUpdate :=
  { route_type := some RouteType.rag
    documents := some []
    tool_name := some "email"
    tool_args := some []
    tool_result := some "sent"
    final_response := some "done" }

/-- Witness for the merge theorem at concrete states and updates. -/
theorem merge_policy_table_witness :
    (applyUpdate (applyUpdate { messages := [Msg.human "hi"] }
        { messages := some [Msg.ai "a"] }) { messages := some [Msg.human "b"] }).messages
      = [Msg.human "hi"] ++ [Msg.ai "a"] ++ [Msg.human "b"]
    ∧ (applyUpdate { messages := [Msg.human "hi"] } exMergeUpdate).route_type
        = some RouteType.rag
    ∧ (applyUpdate { messages := [Msg.human "hi"] } exMergeUpdate).documents = some []
    ∧ (applyUpdate { messages := [Msg.human "hi"] } exMergeUpdate).tool_name = some "email"
    ∧ (applyUpdate { messages := [Msg.human "hi"] } exMergeUpdate).tool_args = some []
    ∧ (applyUpdate { messages := [Msg.human "hi"] } exMergeUpdate).tool_result = some "sent"
    ∧ (applyUpdate { messages := [Msg.human "hi"] } exMergeUpdate).final_response
        = some "done" := by
  have h := merge_policy_table { messages := [Msg.human "hi"] } exMergeUpdate
    { messages := some [Msg.ai "a"] } { messages := some [Msg.human "b"] }
  exact ⟨h.1, h.2.1 _ rfl, h.2.2.1 _ rfl, h.2.2.2.1 _ rfl, h.2.2.2.2.1 _ rfl,
    h.2.2.2.2.2.1 _ rfl, h.2.2.2.2.2.2 _ rfl⟩

/-- C5: on a state whose message list is empty or contains no human message,
`Router.run` returns exactly the update setting `route_type` to DIRECT and the
classification service is never invoked (the returned flag is `false`). -/
theorem router_no_human_direct (state : NodeState)
    (classify : String → String → Except Unit RouteDecision)
    (h : ∀ m ∈ state.messages, m.isHuman = false) :
    routerRun state classify = (routeOnly RouteType.direct, false) := by
  have hq : lastHumanContent state.messages = "" :=
    lastHumanContent_empty _ (fun m hm hh => absurd hh (by simp [h m hm]))
  unfold routerRun
  by_cases h1 : state.messages.isEmpty
  · simp [h1]
  · simp [h1, hq]

/-- Witness for the router default at a state holding only an assistant
message, with a classification service that would answer RAG if invoked. -/
theorem router_no_human_direct_witness :
    routerRun { messages := [Msg.ai "welcome"] }
        (fun _ _ => Except.ok { route_type := RouteType.rag, tool_name := none, reasoning := "r" })
      = (routeOnly RouteType.direct, false) :=
  router_no_human_direct _ _ (by decide)

/-- C6: whenever the classification service raises, `Router.run` returns the
DIRECT update instead of propagating the exception, and the turn still
completes with a response (`final_response` is set). -/
theorem classify_failure_direct (state : NodeState) (message : String) (svc : Services)
    (h : ∀ q c, svc.classify q c = Except.error ()) :
    (routerRun state svc.classify).1 = routeOnly RouteType.direct
    ∧ (runTurn message svc).final_response.isSome = true := by
  refine ⟨?_, runTurn_final_response_isSome message svc⟩
  unfold routerRun
  by_cases h1 : state.messages.isEmpty
  · simp [h1]
  · by_cases h2 : lastHumanContent state.messages = ""
    · simp [h1, h2]
    · simp [h1, h2, h]

/-- Witness for the classification-failure fallback on a concrete turn. -/
theorem classify_failure_direct_witness :
    (routerRun { messages := [Msg.human "Hello!"] } svcClassifyFail.classify).1
      = routeOnly RouteType.direct
    ∧ (runTurn "Hello!" svcClassifyFail).final_response.isSome = true :=
  classify_failure_direct { messages := [Msg.human "Hello!"] } "Hello!" svcClassifyFail
    (fun _ _ => rfl)

/-- C7: on a state whose message list contains no human message with
non-empty content, `Retriever.run` returns exactly the update setting
`documents` to the empty list and no similarity query is issued (the returned
flag is `false`). -/
theorem retriever_no_query_no_search (state : NodeState)
    (retrieve : String → Except Unit (List Document))
    (h : ∀ m ∈ state.messages, m.isHuman = true → m.content = "") :
    retrieverRun state retrieve = ({ documents := some [] }, false) := by
  have hq := lastHumanContent_empty _ h
  unfold retrieverRun
  simp [hq]

/-- Witness for the retriever default at a state whose only human message is
empty, with a backend that would raise if queried. -/
theorem retriever_no_query_no_search_witness :
    retrieverRun { messages := [Msg.ai "hello", Msg.human ""] } (fun _ => Except.error ())
      = ({ documents := some [] }, false) :=
  retriever_no_query_no_search _ _ (by decide)

/-- C8: whenever the text-generation service raises, `ResponseAgent.run`
returns the fixed apologetic fallback in both fields of its update (appended
to `messages` as the assistant message and set as `final_response`), and the
turn ends with that fallback as its `final_response`. -/
theorem generation_failure_fallback (state : NodeState) (message : String) (svc : Services)
    (h : ∀ i, svc.generate i = Except.error ()) :
    responseAgentRun state svc.generate
      = { messages := some [Msg.ai ERROR_RESPONSE], final_response := some ERROR_RESPONSE }
    ∧ (runTurn message svc).final_response = some ERROR_RESPONSE := by
  constructor
  · unfold responseAgentRun
    simp [h]
  · unfold runTurn responseAgentRun
    simp [h, applyUpdate, replaceField]

/-- Witness for the generation-failure fallback on a concrete turn. -/
theorem generation_failure_fallback_witness :
    responseAgentRun { messages := [Msg.human "Hi"] } svcGenFail.generate
      = { messages := some [Msg.ai ERROR_RESPONSE], final_response := some ERROR_RESPONSE }
    ∧ (runTurn "Hi" svcGenFail).final_response = some ERROR_RESPONSE :=
  generation_failure_fallback { messages := [Msg.human "Hi"] } "Hi" svcGenFail
    (fun _ => rfl)

/-- C9: on an initialized service, `send_message` raises a `ValueError` if and
only if the message is empty or longer than 4000 characters, and in that case
the workflow (`bot.chat`) is never invoked. -/
theorem send_message_validation (message threadId : String) (svc : Services) :
    (raisesValueError (sendMessage message threadId svc) = true
      ↔ (message = "" ∨ message.length > 4000))
    ∧ ((message = "" ∨ message.length > 4000)
      → (sendMessage message threadId svc).2 = false) := by
  unfold sendMessage validateMessage raisesValueError
  by_cases h1 : message = ""
  · simp [h1]
  · by_cases h2 : message.length > 4000
    · simp [h1, h2]
    · simp [h1, h2]

/-- Witness for the validation theorem: the empty message is rejected without
invoking the workflow, a plain greeting is accepted. -/
theorem send_message_validation_witness :
    (raisesValueError (sendMessage "" "default" svcAllOk) = true
      ↔ (("" : String) = "" ∨ ("" : String).length > 4000))
    ∧ (sendMessage "" "default" svcAllOk).2 = false
    ∧ raisesValueError (sendMessage "Hello!" "default" svcAllOk) = false :=
  ⟨(send_message_validation "" "default" svcAllOk).1,
   (send_message_validation "" "default" svcAllOk).2 (Or.inl rfl),
   by decide⟩

/-- C10: the `thread_id` argument has no effect on behaviour.  The graph is
compiled without a checkpointer and `chat` never passes the thread id to the
graph, so for the same message and the same service outcomes, `chat` and
`send_message` return the same result for any two thread ids. -/
theorem thread_id_no_effect (message t1 t2 : String) (svc : Services) :
    botChat message t1 svc = botChat message t2 svc
    ∧ sendMessage message t1 svc = sendMessage message t2 svc :=
  ⟨rfl, rfl⟩

/-- C1 counterexample: two sequential `chat` calls on the same thread id do
NOT give the second turn the first exchange as prior conversation.  The first
turn runs and produces an assistant reply, yet the prior-message slice seen by
the second turn is empty: it contains neither the first user message nor
that reply, and the conversation-history payload handed to the generation
service is the no-history placeholder.  The graph is compiled without a
checkpointer and `chat` never passes the thread id to it, so no checkpoint
exists to round-trip. -/
theorem checkpoint_memory_refuted :
    chatTwice "What is X?" "Tell me more" "t" svcAllOk svcAllOk
      = ("Hello, I am the portfolio bot.", "Hello, I am the portfolio bot.")
    ∧ secondTurnPriorMessages "What is X?" "Tell me more" "t" svcAllOk svcAllOk = []
    ∧ Msg.human "What is X?"
        ∉ secondTurnPriorMessages "What is X?" "Tell me more" "t" svcAllOk svcAllOk
    ∧ Msg.ai (botChat "What is X?" "t" svcAllOk)
        ∉ secondTurnPriorMessages "What is X?" "Tell me more" "t" svcAllOk svcAllOk
    ∧ (responderInput (stateBeforeResponder "Tell me more" svcAllOk)).conversation_history
        = "No previous conversation." := by
  refine ⟨rfl, rfl, ?_, ?_, rfl⟩ <;> decide

/-- C1 amended: the repository implements no checkpoint store.  The graph is
compiled without a checkpointer and `chat` builds each graph input from the
new message alone, so for any two sequential turns on the same thread id the
second Responder sees no prior conversation: its prior-message slice is empty
and the only message in its state is the current user message. -/
theorem no_thread_memory (m1 m2 t : String) (svc1 svc2 : Services) :
    secondTurnPriorMessages m1 m2 t svc1 svc2 = []
    ∧ (stateBeforeResponder m2 svc2).messages = [Msg.human m2] := by
  refine ⟨?_, stateBeforeResponder_messages m2 svc2⟩
  unfold secondTurnPriorMessages
  rw [stateBeforeResponder_messages]
  rfl

/-- C3 counterexample: for `tool_name = "nonexistent"` the returned
`tool_result` is not exactly `Unknown tool: nonexistent` — the code appends
`. Available tools: email, calendar` to it. -/
theorem unknown_tool_exact_message_refuted :
    (toolAgentRun { tool_name := some "nonexistent" }).tool_result
      = some "Unknown tool: nonexistent. Available tools: email, calendar"
    ∧ ¬ (toolAgentRun { tool_name := some "nonexistent" }).tool_result
        = some "Unknown tool: nonexistent" := by
  constructor <;> decide

/-- C3 amended: for every state whose tool name is neither of the two
placeholder-handled names `email` and `calendar`, `ToolAgent.run` returns
exactly the update setting `tool_result` to
`Unknown tool: <name>. Available tools: email, calendar` (an absent tool name
renders as `None`); the function is total, so no exception is raised. -/
theorem unknown_tool_result (state : NodeState)
    (h1 : state.tool_name ≠ some "email") (h2 : state.tool_name ≠ some "calendar") :
    toolAgentRun state
      = { tool_result := some ("Unknown tool: " ++ toolNameText state.tool_name
          ++ ". Available tools: email, calendar") } := by
  unfold toolAgentRun
  simp [h1, h2]

/-- Witness for the unknown-tool theorem at `tool_name = "nonexistent"`. -/
theorem unknown_tool_result_witness :
    toolAgentRun { tool_name := some "nonexistent" }
      = { tool_result := some ("Unknown tool: " ++ toolNameText (some "nonexistent")
          ++ ". Available tools: email, calendar") } :=
  unknown_tool_result { tool_name := some "nonexistent" } (by decide) (by decide)

/-- C4 counterexample: a turn on which every service succeeds but the
generation service returns empty text completes with `final_response` set to
the empty string, so not every completed turn yields non-empty text. -/
theorem nonempty_final_response_refuted :
    (runTurn "Hello!" svcGenEmpty).final_response = some "" := by decide

/-- C4 amended: every completed turn sets `final_response`, and it is
non-empty whenever the generation service never succeeds with empty text —
for any classification, retrieval or tool outcome, and also when the
generation service itself fails, in which case the fixed non-empty fallback is
used. -/
theorem final_response_nonempty (message : String) (svc : Services)
    (h : ∀ i r, svc.generate i = Except.ok r → r ≠ "") :
    ∃ r, (runTurn message svc).final_response = some r ∧ r ≠ "" := by
  unfold runTurn responseAgentRun
  cases hg : svc.generate (responderInput (stateBeforeResponder message svc)) with
  | ok r => exact ⟨r, by simp [hg, applyUpdate, replaceField], h _ r hg⟩
  | error e => exact ⟨ERROR_RESPONSE, by simp [hg, applyUpdate, replaceField], by decide⟩

/-- Witness for the non-empty response theorem on a concrete turn whose
generation service returns a fixed non-empty greeting. -/
theorem final_response_nonempty_witness :
    ∃ r, (runTurn "Hello!" svcAllOk).final_response = some r ∧ r ≠ "" :=
  final_response_nonempty "Hello!" svcAllOk (by
    intro i r hr
    injection hr with h2
    rw [← h2]
    decide)

end PortfolioBot
